import Mathlib

/-!
Verification development for the eviqo-client-api repository: a shallow
embedding of the Eviqo MQTT gateway (`packages/eviqo-mqtt/src/gateway.ts`,
`ha-discovery.ts`) and the websocket session client
(`packages/eviqo-client-api/src/client.ts`), together with theorems about
the charging command sequences, the binary codec, the outbound message
counter, status translation, and Home Assistant discovery documents.

Bytes are modelled as `Nat` (each < 256 for ASCII data), JavaScript `Map`s
as association lists, and JavaScript `undefined` as `Option.none`.
-/

namespace Eviqo

/-- JavaScript `a || b` on string options: `undefined` and the empty string
are falsy, any other string is truthy. -/
def jsOrStr (o : Option String) (d : String) : String :=
  match o with
  | some s => if s = "" then d else s
  | none => d

/-- JavaScript `a || b` on numeric options: `undefined` and `0` are falsy. -/
def jsOrNat (o : Option Nat) (d : Nat) : Nat :=
  match o with
  | some n => if n = 0 then d else n
  | none => d

/-- `Map.get` on an association list (first binding wins, as `mapSet`
replaces in place). -/
def lookupAssoc {α : Type} (m : List (String × α)) (k : String) : Option α :=
  match m with
  | [] => none
  | (k', v) :: rest => if k = k' then some v else lookupAssoc rest k

/-- `Map.set` on an association list: replace the existing binding for the
key, or append a new one. -/
def mapSet {α : Type} (m : List (String × α)) (k : String) (v : α) :
    List (String × α) :=
  match m with
  | [] => [(k, v)]
  | (k', v') :: rest =>
    if k = k' then (k, v) :: rest else (k', v') :: mapSet rest k v

/-- ASCII bytes of a string (all payload fields are ASCII). -/
def strBytes (s : String) : List Nat :=
  s.data.map Char.toNat

/-- Decode ASCII bytes back into a string. -/
def bytesToStr (bs : List Nat) : String :=
  String.mk (bs.map Char.ofNat)

/-- Lower-case hex digit for a value `< 16`. -/
def hexDigit (n : Nat) : Char :=
  if n < 10 then Char.ofNat (48 + n) else Char.ofNat (87 + n)

/-- Two-digit lower-case hex rendering of one byte. -/
def hexByte (b : Nat) : String :=
  String.mk [hexDigit ((b / 16) % 16), hexDigit (b % 16)]

/-- Hex dump of a byte list, used by the widget-update parse failure. -/
def hexDump (bs : List Nat) : String :=
  String.join (bs.map hexByte)

/-- Split a byte list on NUL (byte 0) delimiters; the empty input gives one
empty field, mirroring `buffer.split`-style field extraction. -/
def splitOnZero (bs : List Nat) : List (List Nat) :=
  match bs with
  | [] => [[]]
  | b :: rest =>
    let r := splitOnZero rest
    if b = 0 then [] :: r
    else
      match r with
      | [] => [[b]]
      | h :: t => (b :: h) :: t

/-- JavaScript `String.prototype.trim()`: strip whitespace from both
ends. -/
def jsTrim (s : String) : String :=
  String.mk (((s.data.dropWhile (fun c => c.isWhitespace)).reverse.dropWhile
    (fun c => c.isWhitespace)).reverse)

/-- JavaScript `parseInt(s, 10)`: skip leading whitespace, read an optional
sign and then the longest digit prefix; `none` models `NaN`. -/
def jsParseInt (s : String) : Option Int :=
  let cs := s.data.dropWhile (fun c => c.isWhitespace)
  let signAndDigits : Int × List Char :=
    match cs with
    | '-' :: rest => (-1, rest)
    | '+' :: rest => (1, rest)
    | _ => (1, cs)
  let ds := signAndDigits.2.takeWhile (fun c => c.isDigit)
  if ds.isEmpty then none
  else some (signAndDigits.1 * Int.ofNat
    (ds.foldl (fun a c => a * 10 + (c.toNat - 48)) 0))

/-!
## Binary codec

The protocol codec module (`utils/protocol.ts`) is not part of the provided
sources; only its unit tests and its callers are. The two functions the
claims need are therefore modelled from the specification (§4.1).
-/

/-- Modelled from the spec: `encodeCommand(deviceId, pin, value, msgId)`
(called `createCommandMessage` in the repository's test suite; the
implementation file `utils/protocol.ts` is missing from the sources).
Header opcode `0x14` followed by the big-endian 16-bit message id; payload
`deviceId \0 "vw" \0 pin \0 value` with no trailing NUL. -/
def createCommandMessage (deviceId pin value : String) (msgId : Nat) :
    List Nat :=
  [0x14, (msgId / 256) % 256, msgId % 256]
    ++ strBytes deviceId ++ [0] ++ strBytes "vw" ++ [0]
    ++ strBytes pin ++ [0] ++ strBytes value

/-- Result of parsing a widget-update payload: either the three fields or a
parse failure carrying the hex dump of the raw input. -/
inductive WidgetParseResult where
  | ok (deviceId widgetId widgetValue : String)
  | err (rawHex : String)
  deriving DecidableEq, Repr

/-- Modelled from the spec: `parseWidgetUpdate(bytes)` (implementation file
`utils/protocol.ts` is missing from the sources; only its tests are
present). The record is `deviceId \0 "vw" \0 pin \0 value`; the pin field
is returned as `widgetId`. Any malformed record — wrong field count or
missing `"vw"` marker, including the empty input — yields a parse failure
carrying the hex dump of the input; the function is total, so it can never
raise into the read loop. -/
def parseWidgetUpdate (bs : List Nat) : WidgetParseResult :=
  match splitOnZero bs with
  | [d, marker, p, v] =>
    if marker = strBytes "vw" then .ok (bytesToStr d) (bytesToStr p) (bytesToStr v)
    else .err (hexDump bs)
  | _ => .err (hexDump bs)

/-!
## Session client (`packages/eviqo-client-api/src/client.ts`)

The client owns the websocket and a message counter. `sendMessage` builds a
4-byte header `byte1 byte2 byte3 byte4`; when `byte4` is not supplied it is
allocated from `messageCounter`, which is then incremented. JSON payload
bodies are abstracted (`PayloadKind.jsonBody`), since no claim inspects
them; command payloads keep their exact text.
-/

/-- Payload of an outbound frame. JSON object bodies are represented
abstractly; string payloads (device number, command records) keep their
text. -/
inductive PayloadKind where
  | empty
  | jsonBody
  | text (s : String)
  deriving DecidableEq, Repr

/-- One outbound frame as handed to `ws.send`: the four header bytes of
`createBinaryMessage` plus the payload. -/
structure SentFrame where
  byte1 : Nat
  byte2 : Nat
  byte3 : Nat
  byte4 : Nat
  payload : PayloadKind
  deriving DecidableEq, Repr

/-- Mutable state of `EviqoWebsocketConnection` relevant to the claims:
whether `this.ws` is non-null, and the outbound message counter
(initialised to 0 in the field declaration). -/
structure ClientState where
  wsCreated : Bool
  messageCounter : Nat
  deriving DecidableEq, Repr

/-- A fresh `EviqoWebsocketConnection` (as created by the gateway on every
connect and reconnect): counter starts at 0. -/
def freshClient : ClientState :=
  { wsCreated := true, messageCounter := 0 }

/-- `sendMessage(payload, byte1, byte2, byte3, byte4, description)`.
If the websocket is null the method logs and returns without sending or
touching the counter. Otherwise, when `byte4` is `undefined` it is taken
from the counter and the counter is incremented; this happens before the
send, so a throwing `ws.send` (modelled by `sendThrows`, caught and logged
by the method) still consumes the counter value but emits no frame. -/
def sendMessage (sendThrows : Bool) (st : ClientState)
    (payload : PayloadKind) (byte1 byte2 byte3 : Nat)
    (byte4 : Option Nat) : ClientState × List SentFrame :=
  if !st.wsCreated then (st, [])
  else
    let alloc : Nat × ClientState :=
      match byte4 with
      | some b => (b, st)
      | none => (st.messageCounter,
          { st with messageCounter := st.messageCounter + 1 })
    if sendThrows then (alloc.2, [])
    else (alloc.2, [⟨byte1, byte2, byte3, alloc.1, payload⟩])

/-- `sendCommand(deviceId, pin, value)`: builds the payload
`deviceId \0 vw \0 pin \0 value`, sends it with header `00 14 00 <auto>`,
and then emits the `commandSent` event unconditionally — `sendMessage`
swallows both the null-websocket case and send errors, so the emit is
reached on every call. The returned triple is
(new state, frames actually sent, arguments of the emitted event). -/
def sendCommand (sendThrows : Bool) (st : ClientState)
    (deviceId pin value : String) :
    ClientState × List SentFrame × List (String × String × String) :=
  let payload := deviceId ++ "\x00" ++ "vw" ++ "\x00" ++ pin ++ "\x00" ++ value
  let sent := sendMessage sendThrows st (.text payload) 0x00 0x14 0x00 none
  (sent.1, sent.2, [(deviceId, pin, value)])

/-- The client operations that send frames, in the shape the gateway uses
them. Each constructor mirrors one `sendMessage` call site in `client.ts`:
`issueInitialization` fixes `byte4 = 0x01`, `login` fixes `byte4 = 0x03`,
all others leave it `undefined` so it is allocated from the counter.
`requestChargingStatus` performs two sends (DEVICE NUMBER, DEVICE PAGE);
`keepaliveSend` is the sending branch of `keepalive()`. -/
inductive ClientOp where
  | issueInit
  | login
  | queryDevices
  | requestChargingStatus (deviceId : Nat)
  | keepaliveSend
  | command (deviceId pin value : String)
  deriving DecidableEq, Repr

/-- Frames produced by one client operation (send succeeding). -/
def runOp (st : ClientState) (op : ClientOp) : ClientState × List SentFrame :=
  match op with
  | .issueInit => sendMessage false st .jsonBody 0x01 0x30 0x00 (some 0x01)
  | .login => sendMessage false st .jsonBody 0x00 0x02 0x00 (some 0x03)
  | .queryDevices => sendMessage false st .jsonBody 0x01 0x1b 0x00 none
  | .requestChargingStatus deviceId =>
    let r1 := sendMessage false st (.text (toString deviceId)) 0x00 0x49 0x01 none
    let r2 := sendMessage false r1.1 .jsonBody 0x01 0x04 0x00 none
    (r2.1, r1.2 ++ r2.2)
  | .keepaliveSend => sendMessage false st .empty 0x00 0x06 0x00 none
  | .command deviceId pin value =>
    let r := sendCommand false st deviceId pin value
    (r.1, r.2.1)

/-- Frames produced by a sequence of client operations within one
session. -/
def runOps (st : ClientState) (ops : List ClientOp) :
    ClientState × List SentFrame :=
  match ops with
  | [] => (st, [])
  | op :: rest =>
    let r := runOp st op
    let r' := runOps r.1 rest
    (r'.1, r.2 ++ r'.2)

/-- Operations whose every frame gets its message id allocated from the
counter (everything except INIT and LOGIN, which pass fixed ids). -/
def ClientOp.autoId : ClientOp → Bool
  | .issueInit => false
  | .login => false
  | _ => true

/-!
## Device page model (`models/device-page.ts` shape, §3 of the spec)
-/

/-- `visualization` block of a stream; `value` may be absent. -/
structure Visualization where
  value : Option String
  deriving DecidableEq, Repr

/-- One telemetry/control stream of the device page. -/
structure DisplayDataStream where
  id : Nat
  pin : Nat
  name : String
  visualization : Visualization
  units : Option String
  deriving DecidableEq, Repr

/-- One module of a dashboard widget. -/
structure DashModule where
  displayDataStreams : List DisplayDataStream
  deriving DecidableEq, Repr

/-- One dashboard widget. -/
structure DashWidget where
  modules : List DashModule
  deriving DecidableEq, Repr

/-- The dashboard of a device page. -/
structure Dashboard where
  widgets : List DashWidget
  deriving DecidableEq, Repr

/-- Hardware info of a device page. -/
structure HardwareInfo where
  version : Option String
  build : Option String
  deriving DecidableEq, Repr

/-- `EviqoDevicePageModel`: the device page returned by DEVICE_PAGE. -/
structure EviqoDevicePageModel where
  id : Nat
  name : Option String
  productName : Option String
  hardwareInfo : Option HardwareInfo
  dashboard : Dashboard
  deriving DecidableEq, Repr

/-- All streams of a page in the order of the triple nested loop
`widgets / modules / displayDataStreams` used throughout the gateway. -/
def allStreams (device : EviqoDevicePageModel) : List DisplayDataStream :=
  (device.dashboard.widgets.flatMap (fun w => w.modules)).flatMap
    (fun m => m.displayDataStreams)

/-!
## Home Assistant discovery (`eviqo-mqtt/src/ha-discovery.ts`)
-/

/-- One entry of `WIDGET_MAPPINGS`:
device_class, unit, state_class, icon, topic_id, precision. -/
structure WidgetMapping where
  device_class : Option String
  unit : Option String
  state_class : Option String
  icon : Option String
  topic_id : Option String
  precision : Option Nat
  deriving DecidableEq, Repr

/-- The static `WIDGET_MAPPINGS` table; only widgets listed here are
published to MQTT and HA discovery. Fields in constructor order:
device_class, unit, state_class, icon, topic_id, precision. -/
def WIDGET_MAPPINGS : List (String × WidgetMapping) := [
  ("Charging Power", ⟨some "power", some "kW", some "measurement", none, none, none⟩),
  ("Power", ⟨some "power", some "kW", some "measurement", none, none, none⟩),
  ("Energy", ⟨some "energy", some "kWh", some "total_increasing", none, none, none⟩),
  ("Total Energy", ⟨some "energy", some "kWh", some "total_increasing", none, none, none⟩),
  ("Session Energy", ⟨some "energy", some "kWh", some "total_increasing", none, none, none⟩),
  ("Voltage", ⟨some "voltage", some "V", some "measurement", none, none, some 2⟩),
  ("Amperage", ⟨some "current", some "A", some "measurement", none, none, none⟩),
  ("Frequency", ⟨some "frequency", some "Hz", some "measurement", none, none, none⟩),
  ("Temperature", ⟨some "temperature", some "°C", some "measurement", none, none, none⟩),
  ("Charger Temperature", ⟨some "temperature", some "°C", some "measurement", none, none, none⟩),
  ("Session duration", ⟨none, none, none, some "mdi:timer", none, none⟩),
  ("Session power", ⟨some "energy", some "kWh", some "total_increasing", none, none, none⟩),
  ("Session cost", ⟨none, none, none, some "mdi:currency-usd", none, none⟩),
  ("Status", ⟨none, none, none, some "mdi:ev-station", none, none⟩),
  ("Charging Status", ⟨none, none, none, some "mdi:ev-station", none, none⟩),
  ("Connection Status", ⟨none, none, none, some "mdi:connection", none, none⟩),
  ("State of Charge", ⟨some "battery", some "%", some "measurement", none, none, none⟩),
  ("SoC", ⟨some "battery", some "%", some "measurement", none, none, none⟩),
  ("Battery", ⟨some "battery", some "%", some "measurement", none, none, none⟩)]

/-- `a-z` or `0-9`, the characters `normalizeTopicName` keeps. -/
def isLowerAlnum (c : Char) : Bool :=
  (97 ≤ c.toNat && c.toNat ≤ 122) || c.isDigit

/-- `replace(/[^a-z0-9]+/g, '_')`: collapse each maximal run of other
characters to a single underscore. `prevSep` records whether the previous
character was part of such a run. -/
def collapseSeps : List Char → Bool → List Char
  | [], _ => []
  | c :: rest, prevSep =>
    if isLowerAlnum c then c :: collapseSeps rest false
    else if prevSep then collapseSeps rest true
    else '_' :: collapseSeps rest true

/-- `replace(/^_|_$/g, '')`: drop one leading and one trailing
underscore. -/
def stripEdgeUnderscores (cs : List Char) : List Char :=
  let cs' := match cs with
    | '_' :: rest => rest
    | _ => cs
  match cs'.reverse with
  | '_' :: rest => rest.reverse
  | _ => cs'

/-- `normalizeTopicName(name)`: lowercase, collapse non-alphanumeric runs
to `_`, trim a leading/trailing `_`. -/
def normalizeTopicName (name : String) : String :=
  String.mk (stripEdgeUnderscores (collapseSeps (name.data.map Char.toLower) false))

/-- `getTopicId(widgetName)`: the mapping's `topic_id` when present (JS
truthiness), else the normalized widget name. -/
def getTopicId (widgetName : String) : String :=
  match lookupAssoc WIDGET_MAPPINGS widgetName with
  | some mapping => jsOrStr mapping.topic_id (normalizeTopicName widgetName)
  | none => normalizeTopicName widgetName

/-- One entry of `CONTROLLABLE_WIDGETS`: pin, min, step, mode, icon,
maxWidgetName, defaultMax, topic_id. -/
structure ControlSettings where
  pin : String
  min : Nat
  step : Nat
  mode : String
  icon : Option String
  maxWidgetName : Option String
  defaultMax : Option Nat
  topic_id : String
  deriving DecidableEq, Repr

/-- The static `CONTROLLABLE_WIDGETS` table. -/
def CONTROLLABLE_WIDGETS : List (String × ControlSettings) :=
  [("Current", ⟨"3", 0, 1, "slider", some "mdi:current-ac",
    some "Current max", some 48, "current_limit"⟩)]

/-- `findWidgetValue(device, widgetName)`: the `visualization.value` of the
first stream whose name matches (returned even when that value is absent;
later matches are not consulted). -/
def findWidgetValue (device : EviqoDevicePageModel) (widgetName : String) :
    Option String :=
  match (allStreams device).find? (fun s => s.name = widgetName) with
  | some s => s.visualization.value
  | none => none

/-- `DeviceInfo` as built by `createDeviceInfo`. -/
structure DeviceInfo where
  identifiers : List String
  name : String
  manufacturer : String
  model : String
  sw_version : Option String
  hw_version : Option String
  configuration_url : Option String
  deriving DecidableEq, Repr

/-- `createDeviceInfo(device)`. -/
def createDeviceInfo (device : EviqoDevicePageModel) : DeviceInfo where
  identifiers := ["eviqo_" ++ toString device.id]
  name := jsOrStr device.name ("Eviqo Charger " ++ toString device.id)
  manufacturer := "Eviqo"
  model := jsOrStr device.productName "EV Charger"
  sw_version := device.hardwareInfo.bind (fun h => h.version)
  hw_version := device.hardwareInfo.bind (fun h => h.build)
  configuration_url := some "https://app.eviqo.io/dashboard"

/-- `HaEntityConfig`: the discovery document payload; absent JSON fields
are `none`. -/
structure HaEntityConfig where
  name : String
  unique_id : String
  state_topic : String
  device : DeviceInfo
  availability_topic : Option String
  payload_available : Option String
  payload_not_available : Option String
  device_class : Option String
  unit_of_measurement : Option String
  state_class : Option String
  icon : Option String
  suggested_display_precision : Option Nat
  command_topic : Option String
  payload_on : Option String
  payload_off : Option String
  min : Option Int
  max : Option Int
  step : Option Int
  mode : Option String
  deriving DecidableEq, Repr

/-- `createNumberConfig(discoveryPrefix, topicPrefix, device, name,
settings)`: the number-entity discovery document. The maximum starts from
`settings.defaultMax || 48`; when `settings.maxWidgetName` names a widget
whose value is truthy and parses (`parseInt`, radix 10) to a number
strictly greater than 0, that parsed value wins. -/
def createNumberConfig (discoveryPfx topicPfx : String)
    (device : EviqoDevicePageModel) (name : String)
    (settings : ControlSettings) : String × HaEntityConfig :=
  let deviceId := "eviqo_" ++ toString device.id
  let entityId := settings.topic_id
  let uniqueId := deviceId ++ "_" ++ entityId ++ "_control"
  let maxDefault : Int := Int.ofNat (jsOrNat settings.defaultMax 48)
  let maxValue : Int :=
    match settings.maxWidgetName with
    | none => maxDefault
    | some maxWidgetName =>
      match findWidgetValue device maxWidgetName with
      | none => maxDefault
      | some v =>
        if v = "" then maxDefault
        else
          match jsParseInt v with
          | none => maxDefault
          | some parsed => if 0 < parsed then parsed else maxDefault
  let config : HaEntityConfig := {
    name := name ++ " Limit"
    unique_id := uniqueId
    state_topic := topicPfx ++ "/" ++ toString device.id ++ "/" ++ entityId ++ "/state"
    device := createDeviceInfo device
    availability_topic := some (topicPfx ++ "/" ++ toString device.id ++ "/status")
    payload_available := some "online"
    payload_not_available := some "offline"
    device_class := some "current"
    unit_of_measurement := some "A"
    state_class := none
    icon := settings.icon
    suggested_display_precision := none
    command_topic := some (topicPfx ++ "/" ++ toString device.id ++ "/" ++ entityId ++ "/set")
    payload_on := none
    payload_off := none
    min := some (Int.ofNat settings.min)
    max := some maxValue
    step := some (Int.ofNat settings.step)
    mode := some settings.mode }
  (discoveryPfx ++ "/number/" ++ deviceId ++ "/" ++ entityId ++ "_control/config",
    config)

/-!
## Gateway bridge (`eviqo-mqtt/src/gateway.ts`)
-/

/-- The gateway's mutable maps: command topic → (deviceId, pin), reverse
`deviceId:pin` → state topic, deviceId → last raw status, charging command
topic → deviceId. -/
structure GatewayState where
  commandTopicMap : List (String × (String × String))
  pinToStateTopicMap : List (String × String)
  deviceStatus : List (String × String)
  chargingCommandTopicMap : List (String × String)
  deriving DecidableEq, Repr

/-- One `mqttClient.publish(topic, payload, { retain })` call. -/
structure MqttPublish where
  topic : String
  payload : String
  retain : Bool
  deriving DecidableEq, Repr

/-- Observable actions of the charging command handler: an
`eviqoClient.sendCommand(deviceId, pin, value)` call, or the
`await setTimeout(ms)` gap between commands. -/
inductive BridgeEvent where
  | sendCmd (deviceId pin value : String)
  | delayMs (ms : Nat)
  deriving DecidableEq, Repr

/-- The `Status` entry of `VALUE_TRANSFORMERS`: raw `0/1/2/3` become
`unplugged/plugged/charging/stopped`; any other raw value passes through
(`stateMap[value] || value`). -/
def statusTransform (value : String) : String :=
  let stateMap := [("0", "unplugged"), ("1", "plugged"),
    ("2", "charging"), ("3", "stopped")]
  jsOrStr (lookupAssoc stateMap value) value

/-- Apply the transformer registered for the widget, if any; only `Status`
has one. -/
def applyTransformer (widgetName value : String) : String :=
  if widgetName = "Status" then statusTransform value else value

/-- `publishWidgetValue(deviceId, widgetName, rawValue, retain)`: publish
the (possibly transformed) value for any widget present in
`WIDGET_MAPPINGS` or `CONTROLLABLE_WIDGETS`; for `Status` additionally
record the raw value in `deviceStatus` and mirror the charging switch
state (`ON` iff raw value is `"2"`). Returns the new state and the
publishes issued. -/
def publishWidgetValue (topicPfx : String) (mqttConnected : Bool)
    (st : GatewayState) (deviceId widgetName rawValue : String)
    (retain : Bool) : GatewayState × List MqttPublish :=
  if !mqttConnected then (st, [])
  else
    let isInWidgetMappings := (lookupAssoc WIDGET_MAPPINGS widgetName).isSome
    let controlSettings := lookupAssoc CONTROLLABLE_WIDGETS widgetName
    if !isInWidgetMappings && controlSettings.isNone then (st, [])
    else
      let publishValue := applyTransformer widgetName rawValue
      let sensorId := jsOrStr (controlSettings.map (fun c => c.topic_id))
        (getTopicId widgetName)
      let topic := topicPfx ++ "/" ++ deviceId ++ "/" ++ sensorId ++ "/state"
      if widgetName = "Status" then
        let st' := { st with deviceStatus := mapSet st.deviceStatus deviceId rawValue }
        let chargingTopic := topicPfx ++ "/" ++ deviceId ++ "/charging/state"
        let isCharging := rawValue = "2"
        (st', [⟨topic, publishValue, retain⟩,
          ⟨chargingTopic, if isCharging then "ON" else "OFF", retain⟩])
      else
        (st, [⟨topic, publishValue, retain⟩])

/-- `handleChargingCommand(deviceId, command)`: the multi-step charging
protocol on pin `"15"`, keyed on the last tracked status. `OFF` is honoured
only from status `2`; `ON` is rejected from `0`, a no-op from `2`, a
two-command sequence from `1`, and a four-command sequence with a 250 ms
gap from `3`; everything else (unknown status, unknown command) only
warns. The function never writes any gateway map. -/
def handleChargingCommand (st : GatewayState) (deviceId command : String) :
    GatewayState × List BridgeEvent :=
  let currentStatus := lookupAssoc st.deviceStatus deviceId
  let chargingPin := "15"
  if command = "OFF" then
    if currentStatus ≠ some "2" then (st, [])
    else (st, [.sendCmd deviceId chargingPin "3", .sendCmd deviceId chargingPin "0"])
  else if command = "ON" then
    if currentStatus = some "0" then (st, [])
    else if currentStatus = some "2" then (st, [])
    else if currentStatus = some "1" then
      (st, [.sendCmd deviceId chargingPin "2", .sendCmd deviceId chargingPin "0"])
    else if currentStatus = some "3" then
      (st, [.sendCmd deviceId chargingPin "1", .sendCmd deviceId chargingPin "0",
        .delayMs 250,
        .sendCmd deviceId chargingPin "2", .sendCmd deviceId chargingPin "0"])
    else (st, [])
  else (st, [])

/-- `handleMqttMessage(topic, message)`: with no Eviqo client the message
is dropped; a charging command topic dispatches the trimmed payload to
`handleChargingCommand`; a controllable-widget command topic sends the
trimmed payload to the mapped (deviceId, pin); anything else is ignored. -/
def handleMqttMessage (eviqoClientSet : Bool) (st : GatewayState)
    (topic message : String) : GatewayState × List BridgeEvent :=
  if !eviqoClientSet then (st, [])
  else
    match lookupAssoc st.chargingCommandTopicMap topic with
    | some chargingDeviceId =>
      handleChargingCommand st chargingDeviceId (jsTrim message)
    | none =>
      match lookupAssoc st.commandTopicMap topic with
      | none => (st, [])
      | some info => (st, [.sendCmd info.1 info.2 (jsTrim message)])

/-- `handleCommandSent(command)`: the optimistic echo — look up the state
topic for `deviceId:pin` and publish the commanded value non-retained. -/
def handleCommandSent (mqttConnected : Bool) (st : GatewayState)
    (deviceId pin value : String) : List MqttPublish :=
  if !mqttConnected then []
  else
    let pinKey := deviceId ++ ":" ++ pin
    match lookupAssoc st.pinToStateTopicMap pinKey with
    | none => []
    | some stateTopic => [⟨stateTopic, value, false⟩]

/-- One iteration of the stream loop of `subscribeToCommandTopics`: for a
stream found in `CONTROLLABLE_WIDGETS`, register the forward and reverse
command maps and subscribe the command topic. -/
def subscribeStep (topicPfx deviceIdStr : String)
    (acc : GatewayState × List String) (stream : DisplayDataStream) :
    GatewayState × List String :=
  match lookupAssoc CONTROLLABLE_WIDGETS stream.name with
  | none => acc
  | some controlSettings =>
    let entityId := controlSettings.topic_id
    let commandTopic := topicPfx ++ "/" ++ deviceIdStr ++ "/" ++ entityId ++ "/set"
    let stateTopic := topicPfx ++ "/" ++ deviceIdStr ++ "/" ++ entityId ++ "/state"
    let pinKey := deviceIdStr ++ ":" ++ controlSettings.pin
    ({ acc.1 with
        commandTopicMap := mapSet acc.1.commandTopicMap commandTopic
          (deviceIdStr, controlSettings.pin)
        pinToStateTopicMap := mapSet acc.1.pinToStateTopicMap pinKey stateTopic },
      acc.2 ++ [commandTopic])

/-- `subscribeToCommandTopics(device)`: register and subscribe a command
topic for every stream found in `CONTROLLABLE_WIDGETS`, then
unconditionally register and subscribe the device's charging switch
command topic. Returns the new state and the list of subscribed topics. -/
def subscribeToCommandTopics (topicPfx : String) (mqttConnected : Bool)
    (st : GatewayState) (device : EviqoDevicePageModel) :
    GatewayState × List String :=
  if !mqttConnected then (st, [])
  else
    let folded := (allStreams device).foldl
      (subscribeStep topicPfx (toString device.id)) (st, ([] : List String))
    let chargingCommandTopic := topicPfx ++ "/" ++ toString device.id ++ "/charging/set"
    ({ folded.1 with
        chargingCommandTopicMap := mapSet folded.1.chargingCommandTopicMap
          chargingCommandTopic (toString device.id) },
      folded.2 ++ [chargingCommandTopic])

/-- One iteration of `publishInitialWidgetValues`: publish the stream's
value (defaulting to `"0"`) retained. -/
def publishInitialStep (topicPfx : String) (mqttConnected : Bool)
    (deviceId : String) (acc : GatewayState × List MqttPublish)
    (stream : DisplayDataStream) : GatewayState × List MqttPublish :=
  let r := publishWidgetValue topicPfx mqttConnected acc.1 deviceId
    stream.name (jsOrStr stream.visualization.value "0") true
  (r.1, acc.2 ++ r.2)

/-- `publishInitialWidgetValues(device)`: seed every stream's value
(defaulting to `"0"`) through `publishWidgetValue` with retain. -/
def publishInitialWidgetValues (topicPfx : String) (mqttConnected : Bool)
    (st : GatewayState) (device : EviqoDevicePageModel) :
    GatewayState × List MqttPublish :=
  (allStreams device).foldl
    (publishInitialStep topicPfx mqttConnected (toString device.id))
    (st, [])

/-- The four known raw status codes. -/
def okStatusCode (s : String) : Prop :=
  s = "0" ∨ s = "1" ∨ s = "2" ∨ s = "3"

instance (s : String) : Decidable (okStatusCode s) := by
  unfold okStatusCode; infer_instance

/-- The status-code invariant of the spec: every tracked status is one of
the four known codes. -/
def statusInv (st : GatewayState) : Prop :=
  ∀ d s, lookupAssoc st.deviceStatus d = some s → okStatusCode s

/-- The `Current` entry of `CONTROLLABLE_WIDGETS`, spelled out. -/
def currentSettings : ControlSettings :=
  ⟨"3", 0, 1, "slider", some "mdi:current-ac", some "Current max",
    some 48, "current_limit"⟩

/-!
## Concrete fixtures for witnesses and counterexamples
-/

/-- Fixture page whose `Current max` widget reads `"40"`. -/
def pageWithCurrentMax : EviqoDevicePageModel :=
  ⟨51627, some "Garage", some "EVQ7", none,
    ⟨[⟨[⟨[⟨101, 3, "Current", ⟨some "32"⟩, none⟩,
      ⟨102, 9, "Current max", ⟨some "40"⟩, none⟩]⟩]⟩]⟩⟩

/-- Fixture page none of whose streams reports pin 15. -/
def pageNoPin15 : EviqoDevicePageModel :=
  ⟨77001, none, none, none,
    ⟨[⟨[⟨[⟨201, 7, "Voltage", ⟨some "241.29"⟩, none⟩]⟩]⟩]⟩⟩

/-- Fixture gateway state for the charging-sequence witness: one charging
command topic mapped to device `89349`, tracked status `"1"`. -/
def chargingFixtureState : GatewayState :=
  ⟨[], [], [("89349", "1")], [("eviqo/89349/charging/set", "89349")]⟩

/-- Fixture gateway state for the unknown-payload witness. -/
def unknownPayloadFixtureState : GatewayState :=
  ⟨[], [], [("42", "2")], [("eviqo/42/charging/set", "42")]⟩

/-- Fixture gateway state with a tracked status, for the status-invariant
witness. -/
def statusInvFixtureState : GatewayState :=
  ⟨[], [], [("89349", "2")], []⟩

/-!
## Helper lemmas
-/

theorem lookupAssoc_mapSet {α : Type} (m : List (String × α)) (k k' : String)
    (v : α) : lookupAssoc (mapSet m k v) k' =
      if k' = k then some v else lookupAssoc m k' := by
  induction m with
  | nil => simp [mapSet, lookupAssoc]
  | cons hd tl ih =>
    obtain ⟨k₀, v₀⟩ := hd
    by_cases hk : k = k₀
    · subst hk
      by_cases hk' : k' = k <;> simp [mapSet, lookupAssoc, hk']
    · by_cases hk' : k' = k₀
      · subst hk'
        simp [mapSet, lookupAssoc, hk, Ne.symm hk, ih]
      · simp [mapSet, lookupAssoc, hk, hk', ih]

theorem lookupAssoc_mapSet_self {α : Type} (m : List (String × α))
    (k : String) (v : α) : lookupAssoc (mapSet m k v) k = some v := by
  simp [lookupAssoc_mapSet]

/-!
## Claim theorems
-/

/-- C2: the command encoder on `deviceId="51627"`, `pin="3"`, `value="32"`,
`msgId=0x00BB` produces exactly the bytes
`14 00 BB 35 31 36 32 37 00 76 77 00 33 00 33 32` — opcode `0x14`,
big-endian message id, payload `deviceId \0 "vw" \0 pin \0 value`, with no
trailing NUL. -/
theorem encodeCommand_golden_vector :
    createCommandMessage "51627" "3" "32" 0xBB =
      [0x14, 0x00, 0xBB, 0x35, 0x31, 0x36, 0x32, 0x37, 0x00, 0x76, 0x77,
        0x00, 0x33, 0x00, 0x33, 0x32] ∧
    hexDump (createCommandMessage "51627" "3" "32" 0xBB) =
      "1400bb35313632370076770033003332" := by
  decide

/-- C5: `parseWidgetUpdate` on the bytes of `89349 \0 vw \0 5 \0 241.29`
returns exactly `{deviceId:"89349", widgetId:"5", widgetValue:"241.29"}`;
the empty input returns a parse failure carrying the hex dump; and every
input either parses or returns the parse failure carrying the hex dump of
the input — the function is total, so no input can raise. -/
theorem parseWidgetUpdate_golden_and_total :
    parseWidgetUpdate (strBytes "89349" ++ [0] ++ strBytes "vw" ++ [0] ++
        strBytes "5" ++ [0] ++ strBytes "241.29") =
      .ok "89349" "5" "241.29" ∧
    parseWidgetUpdate [] = .err (hexDump []) ∧
    ∀ bs : List Nat, (∃ d w v, parseWidgetUpdate bs = .ok d w v) ∨
      parseWidgetUpdate bs = .err (hexDump bs) := by
  refine ⟨by decide, by decide, ?_⟩
  intro bs
  unfold parseWidgetUpdate
  split
  · rename_i d marker p v heq
    by_cases hm : marker = strBytes "vw"
    · exact Or.inl ⟨bytesToStr d, bytesToStr p, bytesToStr v, by simp [hm]⟩
    · exact Or.inr (by simp [hm])
  · exact Or.inr rfl

/-- C9: `sendCommand` emits the `commandSent` event with exactly the
deviceId, pin and value it was called with, on every call — also when the
websocket is null or `ws.send` throws, both of which are swallowed inside
`sendMessage` — while the frame is actually handed to the websocket only
when the socket exists and the send does not throw. -/
theorem commandSent_always_emitted :
    ∀ (sendThrows : Bool) (st : ClientState) (deviceId pin value : String),
      (sendCommand sendThrows st deviceId pin value).2.2 =
        [(deviceId, pin, value)] ∧
      (sendCommand sendThrows st deviceId pin value).2.1 =
        (if st.wsCreated && !sendThrows then
          [⟨0x00, 0x14, 0x00, st.messageCounter,
            .text (deviceId ++ "\x00" ++ "vw" ++ "\x00" ++ pin ++ "\x00" ++ value)⟩]
        else []) := by
  intro sendThrows st d p v
  refine ⟨rfl, ?_⟩
  cases hw : st.wsCreated <;> cases sendThrows <;>
    simp [sendCommand, sendMessage, hw]

/-- C10: a charging-command payload whose trimmed value is neither `"ON"`
nor `"OFF"` results in zero `sendCommand` calls and leaves the whole
gateway state (deviceStatus and all maps) unchanged. -/
theorem unknown_charging_payload_ignored :
    ∀ (st : GatewayState) (topic message chargingDeviceId : String),
      lookupAssoc st.chargingCommandTopicMap topic = some chargingDeviceId →
      jsTrim message ≠ "ON" → jsTrim message ≠ "OFF" →
      handleMqttMessage true st topic message = (st, []) := by
  intro st topic message d hl hOn hOff
  simp [handleMqttMessage, hl, handleChargingCommand, hOn, hOff]

/-- C10 witness: payload `" toggle "` on a mapped charging topic is
ignored. -/
theorem unknown_charging_payload_ignored_witness :
    lookupAssoc unknownPayloadFixtureState.chargingCommandTopicMap
      "eviqo/42/charging/set" = some "42" ∧
    handleMqttMessage true unknownPayloadFixtureState
      "eviqo/42/charging/set" " toggle " = (unknownPayloadFixtureState, []) :=
  ⟨by decide,
    unknown_charging_payload_ignored unknownPayloadFixtureState
      "eviqo/42/charging/set" " toggle " "42" (by decide) (by decide) (by decide)⟩

/-- C1: for a device with a tracked status, an MQTT publish on its
charging command topic triggers exactly the pin-15 command sequence of the
status table: status `"1"` + `ON` sends `"2","0"`; status `"3"` + `ON`
sends `"1","0"`, waits 250 ms, then `"2","0"`; status `"0"` + `ON` sends
nothing; status `"2"` + `OFF` sends `"3","0"`; any status other than `"2"`
+ `OFF` sends nothing; status `"2"` + `ON` sends nothing. -/
theorem charging_command_sequences (st : GatewayState) (topic d : String)
    (htopic : lookupAssoc st.chargingCommandTopicMap topic = some d) :
    (lookupAssoc st.deviceStatus d = some "1" →
      handleMqttMessage true st topic "ON" =
        (st, [.sendCmd d "15" "2", .sendCmd d "15" "0"])) ∧
    (lookupAssoc st.deviceStatus d = some "3" →
      handleMqttMessage true st topic "ON" =
        (st, [.sendCmd d "15" "1", .sendCmd d "15" "0", .delayMs 250,
          .sendCmd d "15" "2", .sendCmd d "15" "0"])) ∧
    (lookupAssoc st.deviceStatus d = some "0" →
      handleMqttMessage true st topic "ON" = (st, [])) ∧
    (lookupAssoc st.deviceStatus d = some "2" →
      handleMqttMessage true st topic "OFF" =
        (st, [.sendCmd d "15" "3", .sendCmd d "15" "0"])) ∧
    (∀ s, lookupAssoc st.deviceStatus d = some s → s ≠ "2" →
      handleMqttMessage true st topic "OFF" = (st, [])) ∧
    (lookupAssoc st.deviceStatus d = some "2" →
      handleMqttMessage true st topic "ON" = (st, [])) := by
  have hdisp : ∀ m : String, handleMqttMessage true st topic m =
      handleChargingCommand st d (jsTrim m) := by
    intro m
    simp [handleMqttMessage, htopic]
  have htrimOn : jsTrim "ON" = "ON" := by decide
  have htrimOff : jsTrim "OFF" = "OFF" := by decide
  refine ⟨?_, ?_, ?_, ?_, ?_, ?_⟩
  · intro hs
    rw [hdisp, htrimOn]
    simp [handleChargingCommand, hs]
  · intro hs
    rw [hdisp, htrimOn]
    simp [handleChargingCommand, hs]
  · intro hs
    rw [hdisp, htrimOn]
    simp [handleChargingCommand, hs]
  · intro hs
    rw [hdisp, htrimOff]
    simp [handleChargingCommand, hs]
  · intro s hs hne
    rw [hdisp, htrimOff]
    simp [handleChargingCommand, hs, hne]
  · intro hs
    rw [hdisp, htrimOn]
    simp [handleChargingCommand, hs]

/-- C1 witness: device `89349` tracked at status `"1"` receives `ON` on
its charging command topic and sends exactly `"2","0"` on pin 15. -/
theorem charging_command_sequences_witness :
    lookupAssoc chargingFixtureState.chargingCommandTopicMap
      "eviqo/89349/charging/set" = some "89349" ∧
    lookupAssoc chargingFixtureState.deviceStatus "89349" = some "1" ∧
    handleMqttMessage true chargingFixtureState "eviqo/89349/charging/set"
      "ON" = (chargingFixtureState,
        [.sendCmd "89349" "15" "2", .sendCmd "89349" "15" "0"]) :=
  ⟨by decide, by decide,
    (charging_command_sequences chargingFixtureState
      "eviqo/89349/charging/set" "89349" (by decide)).1 (by decide)⟩

/-- C4: every published `Status` value is transformed on the status state
topic — raw `"0"/"1"/"2"/"3"` become
`unplugged/plugged/charging/stopped` — and the companion `charging/state`
topic is published `ON` exactly when the raw value is `"2"` and `OFF`
otherwise; in particular raw `"2"` yields `charging` with `ON` and raw
`"1"` yields `plugged` with `OFF`. -/
theorem status_translation_and_charging_mirror :
    ∀ (topicPfx : String) (st : GatewayState) (deviceId rawValue : String)
      (retain : Bool),
      (publishWidgetValue topicPfx true st deviceId "Status" rawValue
          retain).2 =
        [⟨topicPfx ++ "/" ++ deviceId ++ "/status/state",
          statusTransform rawValue, retain⟩,
         ⟨topicPfx ++ "/" ++ deviceId ++ "/charging/state",
          if rawValue = "2" then "ON" else "OFF", retain⟩] ∧
      statusTransform "0" = "unplugged" ∧ statusTransform "1" = "plugged" ∧
      statusTransform "2" = "charging" ∧ statusTransform "3" = "stopped" := by
  intro topicPfx st deviceId rawValue retain
  refine ⟨?_, by decide, by decide, by decide, by decide⟩
  have hwm : (lookupAssoc WIDGET_MAPPINGS "Status").isSome = true := by decide
  have hcs : lookupAssoc CONTROLLABLE_WIDGETS "Status" = none := by decide
  have hid : getTopicId "Status" = "status" := by decide
  have hlit : ("/" : String) ++ ("status" ++ "/state") = "/status/state" := by
    decide
  simp [publishWidgetValue, hwm, hcs, hid, applyTransformer, jsOrStr]
  rw [String.append_assoc, String.append_assoc, hlit]

/-- C7 counterexample: on a device page none of whose streams reports
pin 15, `subscribeToCommandTopics` still subscribes the charging switch
command topic and registers it for dispatch — the bridge performs no
pin-15 presence check. -/
theorem charging_subscribe_no_pin_check_cex :
    (∀ s ∈ allStreams pageNoPin15, s.pin ≠ 15) ∧
    (subscribeToCommandTopics "eviqo" true ⟨[], [], [], []⟩ pageNoPin15).2 =
      ["eviqo/77001/charging/set"] ∧
    lookupAssoc (subscribeToCommandTopics "eviqo" true ⟨[], [], [], []⟩
        pageNoPin15).1.chargingCommandTopicMap "eviqo/77001/charging/set" =
      some "77001" := by
  decide

/-- C7 amended: `subscribeToCommandTopics` subscribes the charging switch
command topic for every device page unconditionally, whether or not any
stream reports pin 15, and registers it in `chargingCommandTopicMap`. -/
theorem charging_topic_always_subscribed :
    ∀ (topicPfx : String) (st : GatewayState)
      (device : EviqoDevicePageModel),
      (topicPfx ++ "/" ++ toString device.id ++ "/charging/set") ∈
        (subscribeToCommandTopics topicPfx true st device).2 ∧
      lookupAssoc (subscribeToCommandTopics topicPfx true st
          device).1.chargingCommandTopicMap
        (topicPfx ++ "/" ++ toString device.id ++ "/charging/set") =
        some (toString device.id) := by
  intro topicPfx st device
  constructor
  · simp [subscribeToCommandTopics]
  · simp [subscribeToCommandTopics, lookupAssoc_mapSet_self]

theorem createNumberConfig_max_eq (discoveryPfx topicPfx : String)
    (device : EviqoDevicePageModel) :
    (createNumberConfig discoveryPfx topicPfx device "Current"
        currentSettings).2.max =
      some (match findWidgetValue device "Current max" with
        | none => 48
        | some v =>
          if v = "" then 48
          else
            match jsParseInt v with
            | none => 48
            | some parsed => if 0 < parsed then parsed else 48) := by
  cases hf : findWidgetValue device "Current max" <;>
    simp [createNumberConfig, currentSettings, hf, jsOrNat]

/-- C8: the number-entity discovery document for the `Current` control
carries min 0, step 1, slider mode, unit `"A"`, device_class `"current"`;
its max equals the parsed value of the device's `Current max` widget
whenever that value parses to an integer strictly greater than 0, and 48
otherwise (widget absent, unparsable, or non-positive). -/
theorem number_config_bounds :
    lookupAssoc CONTROLLABLE_WIDGETS "Current" = some currentSettings ∧
    ∀ (discoveryPfx topicPfx : String) (device : EviqoDevicePageModel),
      (createNumberConfig discoveryPfx topicPfx device "Current"
          currentSettings).2.min = some 0 ∧
      (createNumberConfig discoveryPfx topicPfx device "Current"
          currentSettings).2.step = some 1 ∧
      (createNumberConfig discoveryPfx topicPfx device "Current"
          currentSettings).2.mode = some "slider" ∧
      (createNumberConfig discoveryPfx topicPfx device "Current"
          currentSettings).2.unit_of_measurement = some "A" ∧
      (createNumberConfig discoveryPfx topicPfx device "Current"
          currentSettings).2.device_class = some "current" ∧
      (∀ v n, findWidgetValue device "Current max" = some v →
        jsParseInt v = some n → 0 < n →
        (createNumberConfig discoveryPfx topicPfx device "Current"
          currentSettings).2.max = some n) ∧
      ((∀ v n, findWidgetValue device "Current max" = some v →
          jsParseInt v = some n → n ≤ 0) →
        (createNumberConfig discoveryPfx topicPfx device "Current"
          currentSettings).2.max = some 48) := by
  refine ⟨by decide, ?_⟩
  intro discoveryPfx topicPfx device
  refine ⟨?_, ?_, ?_, ?_, ?_, ?_, ?_⟩
  · cases hf : findWidgetValue device "Current max" <;>
      simp [createNumberConfig, currentSettings, hf]
  · cases hf : findWidgetValue device "Current max" <;>
      simp [createNumberConfig, currentSettings, hf]
  · cases hf : findWidgetValue device "Current max" <;>
      simp [createNumberConfig, currentSettings, hf]
  · cases hf : findWidgetValue device "Current max" <;>
      simp [createNumberConfig, currentSettings, hf]
  · cases hf : findWidgetValue device "Current max" <;>
      simp [createNumberConfig, currentSettings, hf]
  · intro v n hv hn hpos
    have hne : v ≠ "" := by
      intro hnil
      rw [hnil] at hn
      have hz : jsParseInt "" = none := by decide
      rw [hz] at hn
      exact Option.noConfusion hn
    rw [createNumberConfig_max_eq, hv]
    simp [hne, hn, hpos]
  · intro hall
    rw [createNumberConfig_max_eq]
    cases hf : findWidgetValue device "Current max" with
    | none => rfl
    | some v =>
      cases hp : jsParseInt v with
      | none => simp [hp]
      | some n =>
        have hle : n ≤ 0 := hall v n hf hp
        simp [hp, Int.not_lt.mpr hle]

/-- C8 witness: a page whose `Current max` widget reads `"40"` yields
max 40. -/
theorem number_config_bounds_witness :
    findWidgetValue pageWithCurrentMax "Current max" = some "40" ∧
    jsParseInt "40" = some 40 ∧
    (createNumberConfig "homeassistant" "eviqo" pageWithCurrentMax
      "Current" currentSettings).2.max = some 40 :=
  ⟨by decide, by decide,
    ((number_config_bounds.2 "homeassistant" "eviqo"
      pageWithCurrentMax).2.2.2.2.2.1) "40" 40 (by decide) (by decide)
      (by decide)⟩

theorem handleChargingCommand_state (st : GatewayState)
    (deviceId command : String) :
    (handleChargingCommand st deviceId command).1 = st := by
  simp only [handleChargingCommand]
  split_ifs <;> rfl

theorem handleMqttMessage_state (eviqoClientSet : Bool) (st : GatewayState)
    (topic message : String) :
    (handleMqttMessage eviqoClientSet st topic message).1 = st := by
  cases eviqoClientSet with
  | false => rfl
  | true =>
    cases hcl : lookupAssoc st.chargingCommandTopicMap topic with
    | some chargingDeviceId =>
      simp [handleMqttMessage, hcl, handleChargingCommand_state]
    | none =>
      cases hcm : lookupAssoc st.commandTopicMap topic <;>
        simp [handleMqttMessage, hcl, hcm]

theorem subscribeStep_deviceStatus (topicPfx deviceIdStr : String)
    (acc : GatewayState × List String) (stream : DisplayDataStream) :
    (subscribeStep topicPfx deviceIdStr acc stream).1.deviceStatus =
      acc.1.deviceStatus := by
  unfold subscribeStep
  cases lookupAssoc CONTROLLABLE_WIDGETS stream.name <;> rfl

theorem subscribeFold_deviceStatus (topicPfx deviceIdStr : String)
    (streams : List DisplayDataStream) :
    ∀ acc : GatewayState × List String,
      ((streams.foldl (subscribeStep topicPfx deviceIdStr)
        acc).1).deviceStatus = acc.1.deviceStatus := by
  induction streams with
  | nil => intro acc; rfl
  | cons s rest ih =>
    intro acc
    rw [List.foldl_cons, ih, subscribeStep_deviceStatus]

theorem publishWidgetValue_statusInv (topicPfx : String)
    (mqttConnected : Bool) (st : GatewayState)
    (deviceId widgetName rawValue : String) (retain : Bool)
    (hinv : statusInv st)
    (hok : widgetName = "Status" → okStatusCode rawValue) :
    statusInv (publishWidgetValue topicPfx mqttConnected st deviceId
      widgetName rawValue retain).1 := by
  cases mqttConnected with
  | false => simpa [publishWidgetValue] using hinv
  | true =>
    by_cases hw : widgetName = "Status"
    · subst hw
      have hwm : (lookupAssoc WIDGET_MAPPINGS "Status").isSome = true := by
        decide
      have hcs : lookupAssoc CONTROLLABLE_WIDGETS "Status" = none := by
        decide
      intro d' s' hl
      simp only [publishWidgetValue, hwm, hcs] at hl
      simp at hl
      rw [lookupAssoc_mapSet] at hl
      by_cases hd : d' = deviceId
      · rw [if_pos hd] at hl
        obtain rfl : rawValue = s' := Option.some.inj hl
        exact hok rfl
      · rw [if_neg hd] at hl
        exact hinv d' s' hl
    · have hst : (publishWidgetValue topicPfx true st deviceId widgetName
          rawValue retain).1 = st := by
        simp [publishWidgetValue, hw]
        split <;> rfl
      rw [hst]
      exact hinv

theorem publishInitialFold_statusInv (topicPfx : String)
    (mqttConnected : Bool) (deviceIdStr : String)
    (streams : List DisplayDataStream) :
    ∀ acc : GatewayState × List MqttPublish,
      (∀ s ∈ streams, s.name = "Status" →
        okStatusCode (jsOrStr s.visualization.value "0")) →
      statusInv acc.1 →
      statusInv ((streams.foldl (publishInitialStep topicPfx mqttConnected
        deviceIdStr) acc).1) := by
  induction streams with
  | nil => intro acc _ hinv; exact hinv
  | cons s rest ih =>
    intro acc h hinv
    rw [List.foldl_cons]
    apply ih
    · intro s' hs' hname
      exact h s' (List.mem_cons_of_mem _ hs') hname
    · exact publishWidgetValue_statusInv topicPfx mqttConnected acc.1
        deviceIdStr s.name (jsOrStr s.visualization.value "0") true hinv
        (fun hname => h s (List.mem_cons_self _ _) hname)

/-- C6 counterexample: a `Status` widget update carrying the raw value
`"7"` is stored verbatim in `deviceStatus`, so the stored value leaves the
set `{"0","1","2","3"}` — `publishWidgetValue` performs no validation. -/
theorem deviceStatus_invariant_cex :
    lookupAssoc ((publishWidgetValue "eviqo" true ⟨[], [], [], []⟩ "89349"
        "Status" "7" false).1).deviceStatus "89349" = some "7" ∧
    ¬ okStatusCode "7" ∧
    ¬ statusInv (publishWidgetValue "eviqo" true ⟨[], [], [], []⟩ "89349"
        "Status" "7" false).1 := by
  refine ⟨by decide, by decide, ?_⟩
  intro h
  exact absurd (h "89349" "7" (by decide)) (by decide)

/-- C6 amended: `deviceStatus[d]` always holds the last observed raw
`Status` value verbatim; it lies in `{"0","1","2","3"}` provided every
observed raw `Status` value (including the seeded initial values) does.
Under that proviso the invariant is preserved by every bridge operation:
`publishWidgetValue` (the only writer), `handleMqttMessage` and
`handleChargingCommand` (which never write state),
`subscribeToCommandTopics` (which writes only the command maps), and
`publishInitialWidgetValues`. -/
theorem deviceStatus_tracks_last_raw_status :
    (∀ (topicPfx : String) (mqttConnected : Bool) (st : GatewayState)
        (deviceId widgetName rawValue : String) (retain : Bool),
      statusInv st → (widgetName = "Status" → okStatusCode rawValue) →
      statusInv (publishWidgetValue topicPfx mqttConnected st deviceId
        widgetName rawValue retain).1) ∧
    (∀ (eviqoClientSet : Bool) (st : GatewayState) (topic message : String),
      (handleMqttMessage eviqoClientSet st topic message).1 = st) ∧
    (∀ (st : GatewayState) (deviceId command : String),
      (handleChargingCommand st deviceId command).1 = st) ∧
    (∀ (topicPfx : String) (mqttConnected : Bool) (st : GatewayState)
        (device : EviqoDevicePageModel),
      (subscribeToCommandTopics topicPfx mqttConnected st
        device).1.deviceStatus = st.deviceStatus) ∧
    (∀ (topicPfx : String) (mqttConnected : Bool) (st : GatewayState)
        (device : EviqoDevicePageModel),
      (∀ s ∈ allStreams device, s.name = "Status" →
        okStatusCode (jsOrStr s.visualization.value "0")) →
      statusInv st →
      statusInv (publishInitialWidgetValues topicPfx mqttConnected st
        device).1) := by
  refine ⟨publishWidgetValue_statusInv, handleMqttMessage_state,
    handleChargingCommand_state, ?_, ?_⟩
  · intro topicPfx mqttConnected st device
    cases mqttConnected with
    | false => rfl
    | true =>
      simp [subscribeToCommandTopics, subscribeFold_deviceStatus]
  · intro topicPfx mqttConnected st device h hinv
    exact publishInitialFold_statusInv topicPfx mqttConnected
      (toString device.id) (allStreams device) (st, []) h hinv

/-- C6 witness: a well-formed `Status` update (`"3"`) on a state already
satisfying the invariant keeps the invariant. -/
theorem deviceStatus_tracks_last_raw_status_witness :
    statusInv (publishWidgetValue "eviqo" true statusInvFixtureState
      "89349" "Status" "3" false).1 := by
  apply deviceStatus_tracks_last_raw_status.1
  · intro d s hl
    by_cases hd : d = "89349"
    · simp [statusInvFixtureState, lookupAssoc, hd] at hl
      rw [← hl]
      decide
    · simp [statusInvFixtureState, lookupAssoc, hd] at hl
  · intro _
    decide

theorem sendMessage_counter_le (sendThrows : Bool) (st : ClientState)
    (payload : PayloadKind) (byte1 byte2 byte3 : Nat) (byte4 : Option Nat) :
    st.messageCounter ≤
      (sendMessage sendThrows st payload byte1 byte2 byte3
        byte4).1.messageCounter := by
  cases hw : st.wsCreated <;> cases byte4 <;> cases sendThrows <;>
    simp [sendMessage, hw, Nat.le_succ]

theorem runOp_counter_le (st : ClientState) (op : ClientOp) :
    st.messageCounter ≤ (runOp st op).1.messageCounter := by
  cases op with
  | issueInit => exact sendMessage_counter_le ..
  | login => exact sendMessage_counter_le ..
  | queryDevices => exact sendMessage_counter_le ..
  | requestChargingStatus deviceId =>
    exact Nat.le_trans (sendMessage_counter_le ..) (sendMessage_counter_le ..)
  | keepaliveSend => exact sendMessage_counter_le ..
  | command deviceId pin value =>
    exact sendMessage_counter_le ..

theorem runOps_counter_le (st : ClientState) (ops : List ClientOp) :
    st.messageCounter ≤ (runOps st ops).1.messageCounter := by
  induction ops generalizing st with
  | nil => exact Nat.le_refl _
  | cons op rest ih =>
    exact Nat.le_trans (runOp_counter_le st op) (ih (runOp st op).1)

theorem runOp_auto (c : Nat) (op : ClientOp) (h : op.autoId = true) :
    (runOp ⟨true, c⟩ op).2.map (fun f => f.byte4) =
      List.range' c ((runOp ⟨true, c⟩ op).2.length) ∧
    (runOp ⟨true, c⟩ op).1 = ⟨true, c + (runOp ⟨true, c⟩ op).2.length⟩ := by
  cases op with
  | issueInit => exact absurd h (by decide)
  | login => exact absurd h (by decide)
  | queryDevices => exact ⟨rfl, rfl⟩
  | requestChargingStatus deviceId => exact ⟨rfl, rfl⟩
  | keepaliveSend => exact ⟨rfl, rfl⟩
  | command deviceId pin value => exact ⟨rfl, rfl⟩

theorem runOps_auto (ops : List ClientOp) :
    ∀ c : Nat, (∀ op ∈ ops, op.autoId = true) →
      (runOps ⟨true, c⟩ ops).2.map (fun f => f.byte4) =
        List.range' c ((runOps ⟨true, c⟩ ops).2.length) ∧
      (runOps ⟨true, c⟩ ops).1 = ⟨true, c + (runOps ⟨true, c⟩ ops).2.length⟩ := by
  induction ops with
  | nil => intro c _; exact ⟨rfl, rfl⟩
  | cons op rest ih =>
    intro c h
    have hop := runOp_auto c op (h op (List.mem_cons_self _ _))
    have hrest := ih (c + (runOp ⟨true, c⟩ op).2.length)
      (fun o ho => h o (List.mem_cons_of_mem _ ho))
    rw [← hop.2] at hrest
    have hshape : runOps ⟨true, c⟩ (op :: rest) =
        ((runOps (runOp ⟨true, c⟩ op).1 rest).1,
          (runOp ⟨true, c⟩ op).2 ++ (runOps (runOp ⟨true, c⟩ op).1 rest).2) :=
      rfl
    constructor
    · rw [hshape]
      simp only [List.map_append, List.length_append]
      rw [hop.1, hrest.1, hop.2]
      have := List.range'_append c ((runOp ⟨true, c⟩ op).2.length)
        ((runOps (runOp ⟨true, c⟩ op).1 rest).2.length) 1
      rw [one_mul] at this
      rw [hop.2] at this
      rw [this, Nat.add_comm]
    · rw [hshape]
      simp only [List.length_append]
      rw [hrest.2, hop.2]
      simp [Nat.add_assoc]

/-- C3 counterexample: within a single fresh session, the gateway's own
handshake (INIT with fixed id 1, LOGIN with fixed id 3, then device query
and page requests with counter-allocated ids 0, 1, 2) produces the header
message-id sequence `[1, 3, 0, 1, 2]`, which is not strictly increasing —
it even repeats the id 1 — so the ids cannot be strictly increasing under
any modulus. -/
theorem message_ids_not_strictly_increasing_cex :
    (runOps freshClient [.issueInit, .login, .queryDevices,
        .requestChargingStatus 89349]).2.map (fun f => f.byte4) =
      [1, 3, 0, 1, 2] ∧
    ¬ List.Pairwise (fun a b : Nat => a < b) [1, 3, 0, 1, 2] ∧
    ¬ List.Pairwise (fun a b : Nat => a ≠ b) [1, 3, 0, 1, 2] := by
  refine ⟨by decide, ?_, ?_⟩ <;>
    · intro h
      simp [List.pairwise_cons] at h

/-- C3 amended: only the frames whose message id is auto-allocated from
the counter (all operations except INIT and LOGIN, which pass the fixed
ids 0x01 and 0x03) carry strictly increasing ids: over any sequence of
such operations the ids are exactly `counter, counter+1, …`. The counter
itself is monotone non-decreasing over every operation sequence of one
session and resets only on reconnect, when a fresh client (counter 0) is
constructed. -/
theorem outbound_message_ids_amended :
    (∀ (c : Nat) (ops : List ClientOp), (∀ op ∈ ops, op.autoId = true) →
      (runOps ⟨true, c⟩ ops).2.map (fun f => f.byte4) =
        List.range' c ((runOps ⟨true, c⟩ ops).2.length) ∧
      List.Pairwise (fun a b : Nat => a < b)
        ((runOps ⟨true, c⟩ ops).2.map (fun f => f.byte4))) ∧
    (∀ (st : ClientState) (ops : List ClientOp),
      st.messageCounter ≤ (runOps st ops).1.messageCounter) ∧
    freshClient.messageCounter = 0 := by
  refine ⟨?_, runOps_counter_le, rfl⟩
  intro c ops h
  obtain ⟨hmap, _⟩ := runOps_auto ops c h
  refine ⟨hmap, ?_⟩
  rw [hmap]
  exact List.pairwise_lt_range' c _

/-- C3 amended witness: a device query followed by a page request from a
fresh counter yields ids `[0, 1, 2]`, strictly increasing. -/
theorem outbound_message_ids_amended_witness :
    (∀ op ∈ ([ClientOp.queryDevices,
      ClientOp.requestChargingStatus 89349] : List ClientOp),
      op.autoId = true) ∧
    List.Pairwise (fun a b : Nat => a < b)
      ((runOps ⟨true, 0⟩ [ClientOp.queryDevices,
        ClientOp.requestChargingStatus 89349]).2.map (fun f => f.byte4)) :=
  ⟨by decide,
    (outbound_message_ids_amended.1 0 [ClientOp.queryDevices,
      ClientOp.requestChargingStatus 89349] (by decide)).2⟩

end Eviqo
